import Mathlib

/-!
Verification of the query layer of the `pyrant` client library
(`src/pyrant/query.py` plus `src/pyrant/utils/__init__.py`).

The Python code is shallowly embedded: Python objects become Lean
structures, Python methods become Lean functions, raised exceptions
become `Except` errors, and the remote protocol object (whose module
`pyrant/protocol.py` is not part of the sources, only imported by them)
is modelled from the specification as an abstract `Server`.
-/

namespace Pyrant

/-- Scalar Python values flowing through the query layer. -/
inductive PyAtom : Type where
  | int : Int → PyAtom
  | bool : Bool → PyAtom
  | str : String → PyAtom
  | none : PyAtom
  deriving DecidableEq, Repr, Inhabited

/-- Python runtime values, restricted to the shapes the query layer
handles: scalars, flat lists of scalars, and the decoded table record
(a dict of column name/value strings). -/
inductive PyVal : Type where
  | atom : PyAtom → PyVal
  | list : List PyAtom → PyVal
  | dict : List (String × String) → PyVal
  deriving DecidableEq, Repr, Inhabited

/-- Shorthand constructors mirroring the Python literals. -/
def PyVal.int (n : Int) : PyVal := .atom (.int n)

def PyVal.bool (b : Bool) : PyVal := .atom (.bool b)

def PyVal.str (s : String) : PyVal := .atom (.str s)

def PyVal.none : PyVal := .atom .none

/-- Python exceptions raised by the embedded code.  The constructors
`nameError`, `valueError`, `assertionError`, `typeError`,
`attributeError` and `indexError` correspond to the exception classes
the source actually raises.  `lookupError` and `compositionError` are
the error kinds named by the specification's error taxonomy; they are
present so that the spec's claims about error classes can be stated and
compared with what the code raises. -/
inductive PyErr : Type where
  | nameError : String → PyErr
  | valueError : String → PyErr
  | assertionError : String → PyErr
  | typeError : String → PyErr
  | attributeError : String → PyErr
  | keyError : String → PyErr
  | indexError : PyErr
  | lookupError : String → PyErr
  | compositionError : String → PyErr
  deriving DecidableEq, Repr

/-- Python 2 `hasattr(value, '__iter__')`: lists and dicts have
`__iter__`; strings, numbers, booleans and `None` do not. -/
def PyVal.hasIter : PyVal → Bool
  | .list _ => true
  | .dict _ => true
  | .atom _ => false

/-- Python truthiness of the values that flow through the query layer. -/
def PyVal.truthy : PyVal → Bool
  | .atom (.int n) => n != 0
  | .atom (.bool b) => b
  | .atom (.str s) => s != ""
  | .atom .none => false
  | .list xs => !xs.isEmpty
  | .dict xs => !xs.isEmpty

/-- Python `isinstance(value, bool)`. -/
def PyVal.isBool : PyVal → Bool
  | .atom (.bool _) => true
  | _ => false

/-- Python `isinstance(value, (int, float))` — in Python 2 `bool` is a subclass
of `int`, so booleans pass this test. -/
def PyVal.isIntOrFloat : PyVal → Bool
  | .atom (.int _) => true
  | .atom (.bool _) => true
  | _ => false

/-- Python `isinstance(value, basestring)`. -/
def PyVal.isStr : PyVal → Bool
  | .atom (.str _) => true
  | _ => false

/-- Whether `int(value)` succeeds on a value that is not already an
int/float: only numeral strings convert, everything else raises. -/
def PyVal.intCoercible : PyVal → Bool
  | .atom (.str s) => (s.toInt?).isSome
  | _ => false

/-- Python `len(value)` for the iterable values. -/
def PyVal.pyLen : PyVal → Nat
  | .list xs => xs.length
  | .dict xs => xs.length
  | .atom _ => 0

/-- Python `repr` of a scalar. -/
def PyAtom.pyRepr : PyAtom → String
  | .int n => toString n
  | .bool b => if b then "True" else "False"
  | .str s => "'" ++ s ++ "'"
  | .none => "None"

/-- Python `unicode(x)` / `str(x)` of a scalar. -/
def PyAtom.pyStr : PyAtom → String
  | .int n => toString n
  | .bool b => if b then "True" else "False"
  | .str s => s
  | .none => "None"

/-- Python `str(value)` of an embedded value: scalars print themselves,
a list prints its elements' `repr`s between brackets. -/
def PyVal.pyStr : PyVal → String
  | .atom a => a.pyStr
  | .list xs => "[" ++ String.intercalate ", " (xs.map PyAtom.pyRepr) ++ "]"
  | .dict _ => "\x7b...\x7d"

/-! ### Protocol constants

Modelled from the spec: `pyrant/protocol.py` is imported by the sources
but is not itself under `src/`; the spec states the operator codes are
"a fixed, versioned enumeration (the published command set)", i.e. the
published Tokyo Tyrant table-query enumeration reproduced here. -/

namespace TyrantProtocol

def RDBQCSTREQ : Nat := 0
def RDBQCSTRINC : Nat := 1
def RDBQCSTRBW : Nat := 2
def RDBQCSTREW : Nat := 3
def RDBQCSTRAND : Nat := 4
def RDBQCSTROR : Nat := 5
def RDBQCSTROREQ : Nat := 6
def RDBQCSTRRX : Nat := 7
def RDBQCNUMEQ : Nat := 8
def RDBQCNUMGT : Nat := 9
def RDBQCNUMGE : Nat := 10
def RDBQCNUMLT : Nat := 11
def RDBQCNUMLE : Nat := 12
def RDBQCNUMBT : Nat := 13
def RDBQCNUMOREQ : Nat := 14
def RDBQCFTSPH : Nat := 15
def RDBQCFTSAND : Nat := 16
def RDBQCFTSOR : Nat := 17
def RDBQCFTSEX : Nat := 18
/-- Negation bitflag, OR-ed onto a base operator code. -/
def RDBQCNEGATE : Nat := 1 <<< 24

def TDBMSUNION : Nat := 0
def TDBMSISECT : Nat := 1
def TDBMSDIFF : Nat := 2

def RDBQOSTRASC : Nat := 0
def RDBQOSTRDESC : Nat := 1
def RDBQONUMASC : Nat := 2
def RDBQONUMDESC : Nat := 3

end TyrantProtocol

/-! ### utils: value conversion (`src/pyrant/utils/__init__.py`) -/

/-- Database flavors; `to_python` only distinguishes the tabular flavor
(`DB_TABLE`) from the rest. -/
inductive DbType : Type where
  | table : DbType
  | plain : DbType
  deriving DecidableEq, Repr

/-- Python `utils.from_python`: booleans are coerced to a protocol-safe scalar
(`True → 1`, `False → ''`); every other value passes through. -/
def fromPython : PyVal → PyVal
  | .atom (.bool b) => if b then .int 1 else .str ""
  | v => v

/-- Python `dict((elems[i], elems[i+1]) for i in xrange(0, len(elems), 2))`:
pairs up consecutive elements; an odd-length list raises IndexError at
`elems[i+1]`.  (A duplicate column name would keep the last value in
Python's dict; no decoded record in this development has one.) -/
def pairUp : List String → Except PyErr (List (String × String))
  | [] => .ok []
  | [_] => .error .indexError
  | x :: y :: rest => do
    let r ← pairUp rest
    .ok ((x, y) :: r)

/-- Python `elem.split('\x00')` on the character list: split at every
NUL, keeping empty groups (an empty input gives one empty group), as
Python's `str.split` with an explicit separator does. -/
def splitNul : List Char → List (List Char)
  | [] => [[]]
  | c :: rest =>
    if c = '\x00' then [] :: splitNul rest
    else
      match splitNul rest with
      | g :: gs => (c :: g) :: gs
      | [] => [[c]]

/-- Python `elem.split(TABLE_COLUMN_SEP)` where the separator is the
`\x00` column separator (structural recursion over the characters, so
that concrete runs reduce inside the kernel). -/
def pySplitNul (s : String) : List String :=
  (splitNul s.data).map (fun l => String.mk l)

/-- Python `utils.to_python(elem, dbtype)` with the default `sep=None`: for the
tabular flavor, split on the `\x00` column separator and build the
column dict (an empty first element yields `None`); otherwise return
the element unchanged (`sep` is `None`, so the multi-value split is
skipped). -/
def toPython (dbtype : DbType) (elem : String) : Except PyErr PyVal :=
  match dbtype with
  | .table =>
    let elems := pySplitNul elem
    if (elems.headD "") ≠ "" then do
      let d ← pairUp elems
      .ok (.dict d)
    else
      .ok .none
  | .plain => .ok (.str elem)

/-! ### Lookup definitions (`class Lookup`, `class ExistanceLookup`) -/

/-- One lookup definition: accepted expression shape, operator code,
optional arity bounds, optional per-element transform, and the optional
canned value used instead of the user's expression
(`ExistanceLookup.has_custom_value = True`). -/
structure Lookup : Type where
  operator : Nat
  iterable : Bool := false
  string : Bool := false
  numeric : Bool := false
  boolean : Bool := false
  hasCustomValue : Bool := false
  /-- `Lookup.value`: custom value, only used when `hasCustomValue`. -/
  value : PyVal := .none
  minArgs : Option Nat := .none
  maxArgs : Option Nat := .none
  extra : Option (PyAtom → Except PyErr PyAtom) := .none

/-- The `lambda v: v.lower()` element transform of the fuzzy lookups;
`lower()` on a non-string raises AttributeError. -/
def strLower : PyAtom → Except PyErr PyAtom
  | .str s => .ok (.str s.toLower)
  | _ => .error (.attributeError "lower")

/-- Python `Lookup.accepts(value)`.  For an iterable definition a non-iterable
value is rejected, and otherwise the shape of the first element is
probed (`value = value[0]`, skipped on an empty/falsy value); `d[0]` on
a dict raises KeyError in Python, hence the `Except`. -/
def Lookup.accepts (d : Lookup) (value : PyVal) : Except PyErr Bool := do
  let mut v := value
  if d.iterable then
    if !v.hasIter then
      return false
    if v.truthy then
      match v with
      | .list (x :: _) => v := .atom x
      | .dict _ => throw (.keyError "0")
      | _ => pure ()
  if d.boolean && !v.isBool then
    return false
  if d.numeric && !v.isIntOrFloat && !v.intCoercible then
    return false
  if d.string && !v.isStr then
    return false
  return true

/-- Python `Lookup.process_value(value)`: apply the optional `extra` transform,
mapped over the elements when the value is iterable (iterating a dict
visits its keys). -/
def Lookup.processValue (d : Lookup) (value : PyVal) : Except PyErr PyVal :=
  match d.extra with
  | .none => .ok value
  | .some f =>
    match value with
    | .list xs => do
      let ys ← xs.mapM f
      .ok (.list ys)
    | .dict kvs => do
      let ys ← (kvs.map (fun kv => PyAtom.str kv.1)).mapM f
      .ok (.list ys)
    | .atom a => do
      let y ← f a
      .ok (.atom y)

/-- Truthiness-guarded arity bound test: `self.min_args and
len(value) < self.min_args` (a `None` or `0` bound is skipped). -/
def boundViolated (bound : Option Nat) (violation : Nat → Bool) : Bool :=
  match bound with
  | .some n => n != 0 && violation n
  | .none => false

/-- Python `Lookup.validate(value)`: check the sequence arity against the
bounds, raising ValueError on violation; return the value. -/
def Lookup.validate (d : Lookup) (value : PyVal) : Except PyErr PyVal :=
  if value.hasIter then
    if boundViolated d.minArgs (fun n => value.pyLen < n) then
      .error (.valueError ("expected at least " ++ toString (d.minArgs.getD 0) ++ " arguments"))
    else if boundViolated d.maxArgs (fun n => n < value.pyLen) then
      .error (.valueError ("expected at most " ++ toString (d.maxArgs.getD 0) ++ " arguments"))
    else .ok value
  else .ok value

/-! ### The lookup registry (`Condition.LOOKUP_DEFINITIONS`) -/

open TyrantProtocol in
/-- Python `Condition.LOOKUP_DEFINITIONS`: each lookup name maps to an ordered
candidate list; the `None` key (the default) aliases the `is` entry and
is appended after the literal table, as in the source. -/
def LOOKUP_DEFINITIONS : List (Option String × List Lookup) :=
  [ (.some "between", [{ operator := RDBQCNUMBT, iterable := true, numeric := true,
                         minArgs := .some 2, maxArgs := .some 2 }]),
    (.some "contains", [{ operator := RDBQCSTRINC, string := true },
                        { operator := RDBQCSTRAND, iterable := true, string := true }]),
    (.some "contains_any", [{ operator := RDBQCSTROR, iterable := true, string := true }]),
    (.some "endswith", [{ operator := RDBQCSTREW, string := true }]),
    (.some "exists", [{ operator := RDBQCSTRRX, boolean := true,
                        hasCustomValue := true, value := .str "" }]),
    (.some "gt", [{ operator := RDBQCNUMGT, numeric := true }]),
    (.some "gte", [{ operator := RDBQCNUMGE, numeric := true }]),
    (.some "in", [{ operator := RDBQCSTROREQ, iterable := true, string := true },
                  { operator := RDBQCNUMOREQ, iterable := true, numeric := true }]),
    (.some "is", [{ operator := RDBQCNUMEQ, numeric := true },
                  { operator := RDBQCSTREQ }]),
    (.some "like", [{ operator := RDBQCFTSPH, string := true, extra := .some strLower },
                    { operator := RDBQCFTSAND, iterable := true, string := true,
                      extra := .some strLower }]),
    (.some "like_any", [{ operator := RDBQCFTSOR, iterable := true, string := true,
                          extra := .some strLower }]),
    (.some "lt", [{ operator := RDBQCNUMLT, numeric := true }]),
    (.some "lte", [{ operator := RDBQCNUMLE, numeric := true }]),
    (.some "matches", [{ operator := RDBQCSTRRX, string := true }]),
    (.some "search", [{ operator := RDBQCFTSEX, string := true }]),
    (.some "startswith", [{ operator := RDBQCSTRBW, string := true }]),
    (.none, [{ operator := RDBQCNUMEQ, numeric := true },
             { operator := RDBQCSTREQ }]) ]

/-- Python `self.lookup in self.LOOKUP_DEFINITIONS` (key membership; a parsed
lookup is always a string, so the `None` key is never matched). -/
def lookupKnown (l : String) : Bool :=
  LOOKUP_DEFINITIONS.any (fun kv => kv.1 == .some l)

/-- Python `LOOKUP_DEFINITIONS[self.lookup]`. -/
def defsFor (l : String) : List Lookup :=
  (LOOKUP_DEFINITIONS.lookup (.some l)).getD []

/-- Python `', '.join(str(x) for x in self.LOOKUP_DEFINITIONS)`: the known
lookup names joined for the unknown-lookup error message (`str(None)`
prints as `None`). -/
def availableLookups : String :=
  String.intercalate ", "
    (LOOKUP_DEFINITIONS.map (fun kv =>
      match kv.1 with
      | .some s => s
      | .none => "None"))

/-- The message of the NameError raised for an unknown lookup. -/
def unknownLookupMsg (l : String) : String :=
  "Unknown lookup \"" ++ l ++ "\". Available are: " ++ availableLookups

/-! ### Condition (`class Condition`) -/

/-- A query condition: column name, normalized lookup name, expression
and negation flag. -/
structure Condition : Type where
  name : String
  lookup : String
  expr : PyVal
  negate : Bool
  deriving DecidableEq, Repr

/-- The split of Python `lookup.split('__', 1)`: the part before the
first `"__"` and the part after it, or `none` when no `"__"` occurs
(structural recursion over the characters, so that concrete runs
reduce inside the kernel). -/
def splitFirstDunder : List Char → Option (List Char × List Char)
  | [] => .none
  | '_' :: '_' :: rest => .some ([], rest)
  | c :: rest => (splitFirstDunder rest).map (fun p => (c :: p.1, p.2))

/-- Python `Condition._parse_lookup`: `"foo"` gives `("foo", "is")`;
`"foo__contains"` splits at the first `"__"`. -/
def parseLookup (lookup : String) : String × String :=
  match splitFirstDunder lookup.data with
  | .some (col, op) => (String.mk col, String.mk op)
  | .none => (lookup, "is")

/-- Python `Condition.__init__(lookup, expr, negate)`. -/
def Condition.init (lookup : String) (expr : PyVal) (negate : Bool) : Condition :=
  let (n, l) := parseLookup lookup
  { name := n, lookup := l, expr := expr, negate := negate }

/-- Python `Condition._clone` (`copy.copy`: a fresh object with the same
immutable field values — the identity in a value embedding). -/
def Condition.cloneC (c : Condition) : Condition := c

/-- Python `isinstance(value, bool) and not value`. -/
def isFalseBool : PyVal → Bool
  | .atom (.bool false) => true
  | _ => false

/-- Python `', '.join(unicode(x) for x in value)` — flatten a sequence
expression to the comma-joined token string. -/
def flattenJoin : PyVal → PyVal
  | .list xs => .str (String.intercalate ", " (xs.map PyAtom.pyStr))
  | .dict kvs => .str (String.intercalate ", " (kvs.map (fun kv => kv.1)))
  | v => v

/-- The candidate scan of `Condition.prepare`: find the first definition
that accepts the expression, validate arity (re-raising the ValueError
with the `Bad lookup …` prefix), resolve the custom value and negation,
OR in the negation bit, coerce booleans, and flatten sequences. -/
def prepareScan (name lookup : String) (negate : Bool) (expr : PyVal) :
    List Lookup → Except PyErr (String × Nat × PyVal)
  | [] =>
    .error (.valueError ("could not find a definition for lookup \"" ++ lookup ++
      "\" suitable for value \"" ++ expr.pyStr ++ "\""))
  | d :: rest => do
    let ok ← d.accepts expr
    if ok then
      let value ← match d.validate expr with
        | .error (.valueError msg) =>
          .error (.valueError ("Bad lookup " ++ name ++ "__" ++ lookup ++ "=" ++
            (if expr.hasIter then expr.pyStr else "\"" ++ expr.pyStr ++ "\"") ++ ": " ++ msg))
        | .error e => .error e
        | .ok v => .ok v
      let (negate, value) ←
        if d.hasCustomValue then
          pure (if isFalseBool value then !negate else negate, d.value)
        else do
          let v ← d.processValue value
          pure (negate, v)
      let op := if negate then d.operator ||| TyrantProtocol.RDBQCNEGATE else d.operator
      let value := fromPython value
      let value := if value.hasIter then flattenJoin value else value
      .ok (name, op, value)
    else
      prepareScan name lookup negate expr rest

/-- Python `Condition.prepare()`: compile the condition to the search-ready
triple (column name, operator code, expression string), raising
NameError for an unknown lookup and ValueError when no definition suits
the expression. -/
def Condition.prepare (c : Condition) : Except PyErr (String × Nat × PyVal) :=
  if !lookupKnown c.lookup then
    .error (.nameError (unknownLookupMsg c.lookup))
  else
    prepareScan c.name c.lookup c.negate c.expr (defsFor c.lookup)

/-- A search-ready condition triple as produced by `Condition.prepare`. -/
abbrev Prepared := String × Nat × PyVal

/-! ### Ordering (`class Ordering`) -/

/-- Ordering policy: column name, direction, method. -/
structure Ordering : Type where
  name : Option String
  direction : Nat
  method : Nat
  deriving DecidableEq, Repr

def Ordering.ASC : Nat := 0

def Ordering.DESC : Nat := 1

def Ordering.ALPHABETIC : Nat := 0

def Ordering.NUMERIC : Nat := 1

/-- Python `Ordering.__init__(name, direction, numeric)`: `direction or ASC`
maps `None` to `ASC` and keeps any integer (for an int `d`, `d or 0`
is `d` when nonzero and `0 = ASC` otherwise, i.e. `d` itself). -/
def Ordering.init (name : Option String) (direction : Option Nat) (numeric : Bool) : Ordering :=
  { name := name
    direction := direction.getD Ordering.ASC
    method := if numeric then Ordering.NUMERIC else Ordering.ALPHABETIC }

/-- Python `Ordering.__nonzero__`: `bool(self.name)`. -/
def Ordering.truthy (o : Ordering) : Bool :=
  match o.name with
  | .some s => s != ""
  | .none => false

open TyrantProtocol in
/-- The `type` property: `PROTOCOL_MAP[self.direction][self.method]`
(the map only has keys `0` and `1`; every `Ordering` the library builds
has `direction ∈ {0,1}`). -/
def Ordering.type (o : Ordering) : Nat :=
  if o.direction == Ordering.DESC then
    (if o.method == Ordering.NUMERIC then RDBQONUMDESC else RDBQOSTRDESC)
  else
    (if o.method == Ordering.NUMERIC then RDBQONUMASC else RDBQOSTRASC)

/-- Python `Ordering.__eq__`: attribute-wise comparison of `name`, `direction`
and `method`. -/
def Ordering.pyEq (a b : Ordering) : Bool :=
  a.name == b.name && a.direction == b.direction && a.method == b.method

/-! ### The remote protocol (`pyrant/protocol.py`, not under `src/`) -/

/-- The argument record assembled by `Query._do_search` and handed to
`proto.search`. -/
structure SearchArgs : Type where
  out : Bool
  count : Bool
  hint : Bool
  conditions : List Prepared
  limit : Option Int
  offset : Option Int
  columns : Option (List String) := .none
  orderColumn : Option String := .none
  orderType : Option Nat := .none
  msType : Option Nat := .none
  msConditions : Option (List (List Prepared)) := .none
  deriving DecidableEq, Repr

/-- Modelled from the spec: the remote server behind `TyrantProtocol`
(`pyrant/protocol.py` is imported by the sources but is not under
`src/`).  `search` "returns matching keys by default, or a count, or
keys plus a trailing diagnostic hint, or performs bulk delete of
matches, or returns only requested columns' values"; the response is a
list of strings whose meaning depends on the flags, so it is kept
abstract as a function of the request.  `store` gives each key's raw
stored value, used by the multi-get path. -/
structure Server : Type where
  searchFn : SearchArgs → List String
  store : String → String

/-- Modelled from the spec: `proto.mget` — chunk population "batches
all keys in the chunk's index range into one multi-get call …, pairs
each returned raw value with its key". -/
def Server.mget (s : Server) (ks : List String) : List (String × String) :=
  ks.map (fun k => (k, s.store k))

/-! ### ResultCache (`class ResultCache`) -/

def CACHE_CHUNK_SIZE : Nat := 1000

/-- The mutable state of a `ResultCache`: the realized key list (fetched
once), the populated chunks, and the chunk size. -/
structure CacheState : Type where
  keys : Option (List String)
  chunks : List (Nat × List (String × PyVal))
  chunkSize : Nat
  deriving DecidableEq, Repr

/-- Python `ResultCache.__init__`: no keys, no chunks,
`chunk_size or CACHE_CHUNK_SIZE` (so a falsy `0`/`None` falls back to
the default). -/
def CacheState.init (chunkSize : Option Nat) : CacheState :=
  { keys := .none
    chunks := []
    chunkSize := match chunkSize with
      | .some n => if n ≠ 0 then n else CACHE_CHUNK_SIZE
      | .none => CACHE_CHUNK_SIZE }

/-- Python `ResultCache.get_chunk_number(index)`: `index / chunk_size`
(Python 2 integer division; the constructor guarantees a nonzero
chunk size). -/
def getChunkNumber (size index : Nat) : Nat := index / size

/-- Python `ResultCache.get_chunk_boundaries(number)`. -/
def getChunkBoundaries (size number : Nat) : Nat × Nat :=
  (number * size, number * size + size - 1)

/-- The chunk-population comprehension `[(k, to_python(v)) for k, v in
proto.mget(keys)]`: batch multi-get of the chunk's keys, each value
decoded and paired with its key. -/
def decodeChunk (srv : Server) (dbt : DbType) (ks : List String) :
    Except PyErr (List (String × PyVal)) :=
  (srv.mget ks).mapM (fun kv => do
    let v ← toPython dbt kv.2
    pure (kv.1, v))

/-- Python `ResultCache.get_chunk_data(number)`: an already-populated chunk is
returned as is; otherwise the chunk's key range `keys[start:stop+1]`
(which has length `stop + 1 - start = chunk_size`) is batch-fetched via
`mget`, each value decoded through `to_python`, and the chunk stored.
An empty range yields `None` without storing anything. -/
def getChunkData (srv : Server) (dbt : DbType) (cs : CacheState) (number : Nat) :
    Except PyErr (Option (List (String × PyVal)) × CacheState) :=
  match cs.chunks.lookup number with
  | .some data => .ok (.some data, cs)
  | .none =>
    match cs.keys with
    | .none => .error (.assertionError "Cache keys must be filled by query")
    | .some keys =>
      let start := (getChunkBoundaries cs.chunkSize number).1
      if keys.length ≤ start then .ok (.none, cs)
      else
        let ks := (keys.drop start).take cs.chunkSize
        if ks.isEmpty then .ok (.none, cs)
        else do
          let chunk ← decodeChunk srv dbt ks
          .ok (.some chunk, { cs with chunks := (number, chunk) :: cs.chunks })

/-- Python `ResultCache.get_item(index)`: resolve the chunk number, populate
the chunk, and index it at `index - chunk_start`; indexing past the end
of the (possibly empty) chunk list raises IndexError. -/
def cacheGetItem (srv : Server) (dbt : DbType) (cs : CacheState) (index : Nat) :
    Except PyErr ((String × PyVal) × CacheState) := do
  let chunk := getChunkNumber cs.chunkSize index
  let (dataOpt, cs') ← getChunkData srv dbt cs chunk
  let items := dataOpt.getD []
  let start := (getChunkBoundaries cs.chunkSize chunk).1
  match items[index - start]? with
  | .some it => pure (it, cs')
  | .none => .error .indexError

/-- Truthiness of the `stop` bound (`if stop: …` — `None` and `0` are
falsy, so a `0` stop behaves like an absent bound). -/
def stopTruthy : Option Int → Bool
  | .some n => n != 0
  | .none => false

/-- Python `stop <= k` for a present bound. -/
def stopLe (stop : Option Int) (k : Nat) : Bool :=
  match stop with
  | .some n => decide (n ≤ (k : Int))
  | .none => false

/-- The `enumerate(data)` loop inside `ResultCache.get_items`: yield the
items whose absolute index is at least `start`, and cut the whole
generator (second component `true`) at the first index reaching a
truthy `stop`. -/
def innerScan (start : Nat) (stop : Option Int) (chunkStart : Nat) :
    Nat → List (String × PyVal) → List (String × PyVal) × Bool
  | _, [] => ([], false)
  | i, item :: rest =>
    if stopTruthy stop && stopLe stop (chunkStart + i) then ([], true)
    else
      let (ys, st) := innerScan start stop chunkStart (i + 1) rest
      if start ≤ chunkStart + i then (item :: ys, st) else (ys, st)

/-- The `while 1: … chunk += 1` loop of `ResultCache.get_items`.  The
`fuel` argument bounds the number of chunks visited: each recursive
step consumes a chunk that produced data, the library only ever
populates chunks that hold at least one of the `N` keys, and a fresh
chunk produces data only when `chunk * size < N`, so the loop always
ends within `N + 2` steps and the bound never alters the semantics for
any cache state the library builds. -/
def cacheGetItemsLoop (srv : Server) (dbt : DbType) (start : Nat) (stop : Option Int) :
    Nat → Nat → CacheState → Except PyErr (List (String × PyVal) × CacheState)
  | 0, _, cs => .ok ([], cs)
  | fuel + 1, chunk, cs =>
    let chunkStart := (getChunkBoundaries cs.chunkSize chunk).1
    if stopTruthy stop && stopLe stop chunkStart then .ok ([], cs)
    else
      match getChunkData srv dbt cs chunk with
      | .error e => .error e
      | .ok (.none, cs') => .ok ([], cs')
      | .ok (.some data, cs') =>
        let (ys, stopped) := innerScan start stop chunkStart 0 data
        if stopped then .ok (ys, cs')
        else
          match cacheGetItemsLoop srv dbt start stop fuel (chunk + 1) cs' with
          | .error e => .error e
          | .ok (rest, cs'') => .ok (ys ++ rest, cs'')

/-- Python `ResultCache.get_items(start, stop)`, materialized: assert
`start < stop` when `stop` is truthy, then walk the chunks from
`floor(start / size)` onward. -/
def cacheGetItems (srv : Server) (dbt : DbType) (cs : CacheState) (start : Nat)
    (stop : Option Int) : Except PyErr (List (String × PyVal) × CacheState) :=
  if stopTruthy stop && stopLe stop start then
    .error (.assertionError "")
  else
    cacheGetItemsLoop srv dbt start stop ((cs.keys.getD []).length + 2)
      (getChunkNumber cs.chunkSize start) cs

/-! ### Query (`class Query`) -/

/-- A lazy query: literal flag, condition list, ordering, optional
column projection, metasearch operator and branches, and the per-query
result cache.  The protocol object and database type are passed to
the evaluation functions instead of being stored. -/
structure Query : Type where
  literal : Bool
  conditions : List Condition
  ordering : Ordering
  columns : Option (List String)
  msType : Option Nat
  msConditions : Option (List (List Condition))
  cache : CacheState
  deriving DecidableEq, Repr

/-- Python `Query.__init__`: `conditions or []`, a fresh unordered `Ordering`,
and a fresh `ResultCache`. -/
def Query.init (literal : Bool) (conditions : Option (List Condition))
    (columns : Option (List String)) (msType : Option Nat)
    (msConditions : Option (List (List Condition))) : Query :=
  { literal := literal
    conditions := conditions.getD []
    ordering := Ordering.init .none .none false
    columns := columns
    msType := msType
    msConditions := msConditions
    cache := CacheState.init .none }

/-- Python `Query._clone`: a new `Query` built from `literal`, per-condition
clones, `ms_type`, and — only when truthy — copies of the metasearch
branches and of the column projection (a falsy value is not passed, so
`__init__` stores `None`).  The ordering is not carried over, and the
clone gets a fresh cache. -/
def Query.clone (q : Query) : Query :=
  Query.init q.literal (.some (q.conditions.map Condition.cloneC))
    (match q.columns with
      | .some (c :: cs) => .some (c :: cs)
      | _ => .none)
    q.msType
    (match q.msConditions with
      | .some (b :: bs) => .some ((b :: bs).map (fun conds => conds.map Condition.cloneC))
      | _ => .none)

/-- Python `Query._do_search`: prepare the conditions (or take the caller's
truthy list), assemble the search arguments — adding columns, ordering
and metasearch fields only when truthy — and issue `proto.search`.
Returns the server response together with the trace of issued search
requests (empty when a condition fails to compile, since the failure
precedes the round-trip). -/
def Query.doSearch (srv : Server) (q : Query) (conditions : Option (List Prepared))
    (limit offset : Option Int) (out count hint : Bool)
    (columns : Option (List String)) :
    Except PyErr (List String) × List SearchArgs :=
  match (do
    let conds ← match conditions with
      | .some (c :: cs) => Except.ok (c :: cs)
      | _ => q.conditions.mapM Condition.prepare
    let args : SearchArgs :=
      { out := out, count := count, hint := hint, conditions := conds,
        limit := limit, offset := offset }
    let args := match columns with
      | .some (c :: cs) => { args with columns := .some (c :: cs) }
      | _ => args
    let args := if q.ordering.truthy then
        { args with orderColumn := q.ordering.name, orderType := .some q.ordering.type }
      else args
    let args ← match q.msConditions with
      | .some (b :: bs) => do
        let ms ← (b :: bs).mapM (fun conds => conds.mapM Condition.prepare)
        Except.ok { args with msType := q.msType, msConditions := .some ms }
      | _ => Except.ok args
    Except.ok args : Except PyErr SearchArgs) with
  | .error e => (.error e, [])
  | .ok args => (.ok (srv.searchFn args), [args])

/-- Python `Query._filter(negate, args, kwargs)`: clone, then append clones of
the positional `Q` conditions with their negation XOR-ed, then append
conditions built from the keyword lookups with the given negation. -/
def Query.filterImpl (q : Query) (negate : Bool) (args : List Condition)
    (kwargs : List (String × PyVal)) : Query :=
  let query := q.clone
  let fromArgs := args.map (fun cond =>
    let c := cond.cloneC
    { c with negate := xor c.negate negate })
  let query := { query with conditions := query.conditions ++ fromArgs }
  let fromKwargs := kwargs.map (fun kv => Condition.init kv.1 kv.2 negate)
  { query with conditions := query.conditions ++ fromKwargs }

/-- Python `Query.filter`. -/
def Query.filter (q : Query) (args : List Condition)
    (kwargs : List (String × PyVal)) : Query :=
  q.filterImpl false args kwargs

/-- Python `Query.exclude`. -/
def Query.exclude (q : Query) (args : List Condition)
    (kwargs : List (String × PyVal)) : Query :=
  q.filterImpl true args kwargs

/-- State-passing form of `_filter`: the second component is the
receiver's state after the call.  The method body assigns only to the
fresh clone and to copies of the argument conditions, never to `self`
or to any object reachable from it (the clone's condition list is a
fresh list of fresh `Condition` copies), so the receiver comes back
unchanged. -/
def Query.filterSP (q : Query) (negate : Bool) (args : List Condition)
    (kwargs : List (String × PyVal)) : Query × Query :=
  (q.filterImpl negate args kwargs, q)

/-- Python `Query._add_to_metasearch(other, operator)`: clone, assert the
operator matches the tree's existing operator (an `AssertionError`
otherwise), and append the other query's conditions (via a clone of
`other`) as a new branch. -/
def Query.addToMetasearch (q other : Query) (operator : Nat) : Except PyErr Query :=
  let query := q.clone
  if query.msType = .none ∨ query.msType = .some operator then
    let msConds := query.msConditions.getD []
    let other := other.clone
    .ok { query with
      msConditions := .some (msConds ++ [other.conditions])
      msType := .some operator }
  else
    .error (.assertionError "You can not mix union with intersect or minus")

/-- State-passing form of `_add_to_metasearch`: as with `_filter`, the
body only mutates the fresh clone, so the receiver (second component)
comes back unchanged — also when the operator check fails. -/
def Query.addToMetasearchSP (q other : Query) (operator : Nat) :
    Except PyErr Query × Query :=
  (q.addToMetasearch other operator, q)

/-- Python `Query.union`. -/
def Query.union (q other : Query) : Except PyErr Query :=
  q.addToMetasearch other TyrantProtocol.TDBMSUNION

/-- Python `Query.intersect`. -/
def Query.intersect (q other : Query) : Except PyErr Query :=
  q.addToMetasearch other TyrantProtocol.TDBMSISECT

/-- Python `Query.minus`. -/
def Query.minus (q other : Query) : Except PyErr Query :=
  q.addToMetasearch other TyrantProtocol.TDBMSDIFF

/-- Python `Query.order_by(name, numeric)`: clone, parse the `-` prefix, set
the new ordering, and share the predecessor's cache when the ordering
is unchanged. -/
def Query.orderBy (q : Query) (name : String) (numeric : Bool) : Query :=
  let query := q.clone
  let (name, direction) :=
    if name.startsWith "-" then (name.drop 1, Ordering.DESC) else (name, Ordering.ASC)
  let query := { query with ordering := Ordering.init (.some name) (.some direction) numeric }
  if q.ordering.pyEq query.ordering then { query with cache := q.cache } else query

/-- Python `Query.set_chunk_size(size)`: drop the cache for a fresh one with
the given chunk size. -/
def Query.setChunkSize (q : Query) (size : Option Nat) : Query :=
  { q with cache := CacheState.init size }

/-- Python `ResultCache.get_keys(self._do_search)` as used by the evaluation
entrypoints: return the cached key list, or realize it with one search.
Returns the updated query and the trace of searches issued. -/
def Query.getKeys (srv : Server) (q : Query) :
    Except PyErr (List String × Query) × List SearchArgs :=
  match q.cache.keys with
  | .some keys => (.ok (keys, q), [])
  | .none =>
    match q.doSearch srv .none .none .none false false false .none with
    | (.error e, tr) => (.error e, tr)
    | (.ok keys, tr) =>
      (.ok (keys, { q with cache := { q.cache with keys := .some keys } }), tr)

/-- Python `Query._get_slice(s)`: reject negative bounds, then reject a
zero-length slice — but only when `s.start` is truthy, so the slice
`0:0` slips through — then realize the keys and materialize
`get_items(start or 0, stop)`. -/
def Query.getSlice (srv : Server) (dbt : DbType) (q : Query)
    (sStart sStop : Option Int) :
    Except PyErr (List (String × PyVal)) × Query × List SearchArgs :=
  if (match sStart with | .some n => decide (n < 0) | .none => false)
      || (match sStop with | .some n => decide (n < 0) | .none => false) then
    (.error (.valueError "Negative indexing is not supported"), q, [])
  else if (match sStart with | .some n => n ≠ 0 | .none => false) && sStart == sStop then
    (.error (.valueError "Zero-length slices are not supported"), q, [])
  else
    match q.getKeys srv with
    | (.error e, tr) => (.error e, q, tr)
    | (.ok (_, q'), tr) =>
      let start := (match sStart with | .some n => n.toNat | .none => 0)
      match cacheGetItems srv dbt q'.cache start sStop with
      | .error e => (.error e, q', tr)
      | .ok (items, cs') => (.ok items, { q' with cache := cs' }, tr)

/-- Python `Query._get_item(index)`: reject a negative index, realize the
keys, and resolve through the chunked cache (`get_item` raising
IndexError past the end; the `item is None` re-check can never fire
since chunk items are `(key, value)` pairs). -/
def Query.getItem (srv : Server) (dbt : DbType) (q : Query) (index : Int) :
    Except PyErr (String × PyVal) × Query × List SearchArgs :=
  if index < 0 then
    (.error (.valueError "Negative indexing is not supported"), q, [])
  else
    match q.getKeys srv with
    | (.error e, tr) => (.error e, q, tr)
    | (.ok (_, q'), tr) =>
      match cacheGetItem srv dbt q'.cache index.toNat with
      | .error e => (.error e, q', tr)
      | .ok (item, cs') => (.ok item, { q' with cache := cs' }, tr)

/-- The two result shapes of `Query.columns`: the full `self[:]`
fallback returns the cached `(key, value)` pairs, the projected path a
bare list of decoded values. -/
inductive ColumnsResult : Type where
  | items : List (String × PyVal) → ColumnsResult
  | values : List PyVal → ColumnsResult
  deriving DecidableEq, Repr

/-- Python `Query.columns(*names)`: with `'*'` among the names, fall back to
the full slice fetch `self[:]`; otherwise issue one search passing the
names as the column projection (`_do_search` drops a falsy — in
particular empty — name tuple) and decode each returned value. -/
def Query.columnsQ (srv : Server) (dbt : DbType) (q : Query) (names : List String) :
    Except PyErr ColumnsResult × Query × List SearchArgs :=
  if names.contains "*" then
    match q.getSlice srv dbt .none .none with
    | (.error e, q', tr) => (.error e, q', tr)
    | (.ok items, q', tr) => (.ok (.items items), q', tr)
  else
    match q.doSearch srv .none .none .none false false false (.some names) with
    | (.error e, tr) => (.error e, q, tr)
    | (.ok values, tr) =>
      match values.mapM (toPython dbt) with
      | .error e => (.error e, q, tr)
      | .ok vs => (.ok (.values vs), q, tr)

/-- Python `Query.delete(quick)`: issue the bulk-delete search (`out=True`),
then — only when `quick` is `True` — issue the count search and return
`not bool(response)` (the response list's falsiness); with
`quick=False` return `None` without any verification call. -/
def Query.delete (srv : Server) (q : Query) (quick : Bool) :
    Except PyErr (Option Bool) × List SearchArgs :=
  match q.doSearch srv .none .none .none true false false .none with
  | (.error e, tr) => (.error e, tr)
  | (.ok _response, tr1) =>
    if quick then
      match q.doSearch srv .none .none .none false true false .none with
      | (.error e, tr2) => (.error e, tr1 ++ tr2)
      | (.ok lst, tr2) => (.ok (.some lst.isEmpty), tr1 ++ tr2)
    else
      (.ok .none, tr1)

/-- The fully materialized result sequence of a realized key list: each
key paired with its decoded stored value.  This is the specification's
reference sequence against which chunked access is compared. -/
def materializedSeq (dec : String → PyVal) (keys : List String) :
    List (String × PyVal) :=
  keys.map (fun k => (k, dec k))

/-! ### Concrete fixtures used by witnesses and counterexamples -/

/-- A server over a two-record table store used for the concrete
evaluations: a plain key search matches `a` and `b`, a count search
answers `2`, a column-projected search returns the projected records,
and the bulk-delete search returns the empty response. -/
def srvEx : Server :=
  { searchFn := fun args =>
      if args.count then ["2"]
      else if args.out then []
      else if args.columns.isSome then ["name\x00Foo", "name\x00Bar"]
      else ["a", "b"]
    store := fun k => if k == "a" then "name\x00Foo" else "name\x00Bar" }

/-- An empty query: no conditions, no projection, no metasearch. -/
def qEx : Query := Query.init false .none .none .none .none

/-- The materialized `(key, record)` items of the two matches of
`srvEx`. -/
def itemsEx : List (String × PyVal) :=
  [("a", .dict [("name", "Foo")]), ("b", .dict [("name", "Bar")])]

/-- Decidable equality of `Except` results, so that the concrete
evaluations can be checked by `decide`. -/
instance {ε α : Type} [DecidableEq ε] [DecidableEq α] : DecidableEq (Except ε α) := fun a b =>
  match a, b with
  | .ok x, .ok y =>
    if h : x = y then .isTrue (by rw [h]) else .isFalse (fun hh => h (Except.ok.inj hh))
  | .error x, .error y =>
    if h : x = y then .isTrue (by rw [h]) else .isFalse (fun hh => h (Except.error.inj hh))
  | .ok _, .error _ => .isFalse (fun hh => Except.noConfusion hh)
  | .error _, .ok _ => .isFalse (fun hh => Except.noConfusion hh)

/-- A condition over an unknown lookup name. -/
def bogusCond : Condition := Condition.init "foo__frobnicate" (.int 1) false

/-- A query whose only condition uses an unknown lookup name. -/
def qBogus : Query := { qEx with conditions := [bogusCond] }

/-- A small three-key plain-flavored store for the cache theorems. -/
def srvPlain : Server :=
  { searchFn := fun _ => ["a", "b", "c"]
    store := fun k => "v" ++ k }

/-- The plain decoder matching `srvPlain`. -/
def decPlain : String → PyVal := fun k => .str ("v" ++ k)

/-- Cloning preserves the metasearch operator. -/
theorem clone_msType (q : Query) : q.clone.msType = q.msType := rfl

/-- Adding a metasearch branch with a compatible operator (no operator
yet, or the same operator) succeeds, producing a clone with the branch
appended and the operator set. -/
theorem addToMetasearch_of_compatible (q other : Query) (op : Nat)
    (h : q.msType = .none ∨ q.msType = .some op) :
    q.addToMetasearch other op =
      .ok { q.clone with
        msConditions := .some (q.clone.msConditions.getD [] ++ [other.clone.conditions])
        msType := .some op } := by
  have hc : q.clone.msType = .none ∨ q.clone.msType = .some op := by
    rw [clone_msType]; exact h
  simp only [Query.addToMetasearch, if_pos hc]

/-- Adding a metasearch branch with an operator different from the
tree's existing one fails with the mixing AssertionError. -/
theorem addToMetasearch_of_mixed (q other : Query) (op : Nat)
    (h1 : q.msType ≠ .none) (h2 : q.msType ≠ .some op) :
    q.addToMetasearch other op =
      .error (.assertionError "You can not mix union with intersect or minus") := by
  have hc : ¬(q.clone.msType = .none ∨ q.clone.msType = .some op) := by
    rw [clone_msType]
    rintro (h | h)
    exacts [h1 h, h2 h]
  simp only [Query.addToMetasearch, if_neg hc]

/-- C7: for every column name and caller-side negation state, preparing
an `exists` condition compiles to the canned empty-string expression
(the boolean itself is never transmitted) with the base operator
`RDBQCSTRRX` and the negation bit set iff the caller negation XOR-ed
with the flip for a `False` value holds; consequently preparing with
`False` equals preparing with `True` under the flipped negation. -/
theorem exists_lookup_flips_negation (col : String) (b n : Bool) :
    (Condition.mk col "exists" (.bool b) n).prepare =
      .ok (col,
        (if xor n (b == false) then
          TyrantProtocol.RDBQCSTRRX ||| TyrantProtocol.RDBQCNEGATE
        else TyrantProtocol.RDBQCSTRRX),
        .str "")
    ∧ (Condition.mk col "exists" (.bool false) n).prepare =
      (Condition.mk col "exists" (.bool true) (!n)).prepare := by
  cases b <;> cases n <;> exact ⟨rfl, rfl⟩

/-- C8: preparing a `between` condition with the two-element numeric
sequence `[1, 10]` compiles to the `RDBQCNUMBT` operator with the
comma-joined expression, while the one-element sequence `[1]` fails
with a minimum-arity ValueError and the three-element sequence
`[1, 2, 3]` with a maximum-arity ValueError. -/
theorem between_arity_validation :
    (Condition.mk "price" "between" (.list [.int 1, .int 10]) false).prepare =
      .ok ("price", TyrantProtocol.RDBQCNUMBT, .str "1, 10")
    ∧ (Condition.mk "price" "between" (.list [.int 1]) false).prepare =
      .error (.valueError "Bad lookup price__between=[1]: expected at least 2 arguments")
    ∧ (Condition.mk "price" "between" (.list [.int 1, .int 2, .int 3]) false).prepare =
      .error (.valueError "Bad lookup price__between=[1, 2, 3]: expected at most 2 arguments") := by
  refine ⟨by decide, by decide, by decide⟩

/-- C9: `_filter` never mutates the receiver — in the state-passing
reading the receiver's post-state equals its pre-state (condition list,
negate flags, metasearch tree and cache included) — and the new query
carries the receiver's conditions followed by the appended ones, with a
fresh result cache. -/
theorem filter_preserves_receiver (q : Query) (negate : Bool)
    (args : List Condition) (kwargs : List (String × PyVal)) :
    (q.filterSP negate args kwargs).2 = q
    ∧ (q.filterImpl negate args kwargs).conditions =
        q.conditions ++ args.map (fun c => { c with negate := xor c.negate negate })
          ++ kwargs.map (fun kv => Condition.init kv.1 kv.2 negate)
    ∧ (q.filterImpl negate args kwargs).cache = CacheState.init .none := by
  refine ⟨rfl, ?_, rfl⟩
  simp [Query.filterImpl, Query.clone, Query.init,
    show Condition.cloneC = id from rfl]

/-- C10: `_clone` does not carry the ordering over, so any combinator
other than `order_by` — `filter`/`exclude` (via `_filter`) and
`union`/`intersect`/`minus` (via `_add_to_metasearch`) — returns a
query whose ordering is the unordered sentinel, even when the
receiver's ordering was set by `order_by`. -/
theorem clone_drops_ordering (q other : Query) (name : String)
    (numeric negate : Bool) (args : List Condition)
    (kwargs : List (String × PyVal)) (op : Nat) :
    ((q.orderBy name numeric).filterImpl negate args kwargs).ordering =
        Ordering.init .none .none false
    ∧ (((q.orderBy name numeric).addToMetasearch other op).map (fun r => r.ordering)) =
        (((q.orderBy name numeric).addToMetasearch other op).map
          (fun _ => Ordering.init .none .none false))
    ∧ q.clone.ordering = Ordering.init .none .none false := by
  refine ⟨rfl, ?_, rfl⟩
  simp only [Query.addToMetasearch]
  split <;> rfl

/-- C3 counterexample: composing `union(a, b)` and then `intersect` on
the result fails with an `AssertionError` (the bare
`assert query._ms_type in (None, operator)`), not with an error of the
spec's `CompositionError` kind. -/
theorem metasearch_mixed_op_not_compositionError :
    ((qEx.union qEx).bind (fun r => r.intersect qEx)) =
      .error (.assertionError "You can not mix union with intersect or minus")
    ∧ (match (qEx.union qEx).bind (fun r => r.intersect qEx) with
        | .error (.compositionError _) => true
        | _ => false) = false := by
  exact ⟨rfl, rfl⟩

/-- C3 (amended): on a query with no metasearch operator, adding a
branch succeeds, adding another branch with the same operator succeeds,
and adding a branch with a different operator fails with the
AssertionError "You can not mix union with intersect or minus", the
receiver being left unchanged. -/
theorem metasearch_mixed_op_assertionError (a b c : Query) (op op' : Nat)
    (h : a.msType = .none) (hne : op' ≠ op) :
    ∃ r, a.addToMetasearch b op = .ok r
      ∧ (∃ r2, r.addToMetasearch c op = .ok r2)
      ∧ (r.addToMetasearchSP c op').1 =
          .error (.assertionError "You can not mix union with intersect or minus")
      ∧ (r.addToMetasearchSP c op').2 = r := by
  refine ⟨_, addToMetasearch_of_compatible a b op (Or.inl h),
    ⟨_, addToMetasearch_of_compatible _ c op (Or.inr rfl)⟩, ?_, rfl⟩
  exact addToMetasearch_of_mixed _ c op'
    (fun hh => Option.noConfusion hh)
    (fun hh => hne (Option.some.inj hh).symm)

/-- C3 witness: the amended theorem at the concrete empty queries with
the union and intersect operators. -/
theorem metasearch_mixed_op_assertionError_witness :
    qEx.msType = .none
    ∧ ∃ r, qEx.addToMetasearch qEx TyrantProtocol.TDBMSUNION = .ok r
      ∧ (∃ r2, r.addToMetasearch qEx TyrantProtocol.TDBMSUNION = .ok r2)
      ∧ (r.addToMetasearchSP qEx TyrantProtocol.TDBMSISECT).1 =
          .error (.assertionError "You can not mix union with intersect or minus")
      ∧ (r.addToMetasearchSP qEx TyrantProtocol.TDBMSISECT).2 = r :=
  ⟨rfl, metasearch_mixed_op_assertionError qEx qEx qEx _ _ rfl (by decide)⟩

set_option maxRecDepth 8192 in
/-- C5 counterexample: preparing a condition whose lookup name does not
resolve raises a `NameError` (naming the lookup and the known set), not
an error of the spec's `LookupError` kind. -/
theorem unknown_lookup_not_lookupError :
    bogusCond.prepare = .error (.nameError (unknownLookupMsg "frobnicate"))
    ∧ unknownLookupMsg "frobnicate" =
        "Unknown lookup \"frobnicate\". Available are: between, contains, " ++
        "contains_any, endswith, exists, gt, gte, in, is, like, like_any, " ++
        "lt, lte, matches, search, startswith, None"
    ∧ (match bogusCond.prepare with
        | .error (.lookupError _) => true
        | _ => false) = false := by
  refine ⟨by decide, by decide, by decide⟩

/-- C5 (amended): a condition whose lookup is not in the fixed registry
fails in `prepare()` with a NameError whose message names the offending
lookup and the known lookup set, and a search over such a condition
fails before any request reaches the server (empty search trace). -/
theorem unknown_lookup_raises_nameError_locally (c : Condition) (srv : Server)
    (q : Query) (h : lookupKnown c.lookup = false) (hq : q.conditions = [c]) :
    c.prepare = .error (.nameError (unknownLookupMsg c.lookup))
    ∧ unknownLookupMsg c.lookup =
        "Unknown lookup \"" ++ c.lookup ++ "\". Available are: " ++ availableLookups
    ∧ q.doSearch srv .none .none .none false false false .none =
        (.error (.nameError (unknownLookupMsg c.lookup)), []) := by
  have hp : c.prepare = .error (.nameError (unknownLookupMsg c.lookup)) := by
    simp [Condition.prepare, h]
  have hm : List.mapM.loop Condition.prepare [c] [] =
      (.error (.nameError (unknownLookupMsg c.lookup)) : Except PyErr (List Prepared)) := by
    simp [List.mapM.loop, hp]
  refine ⟨hp, rfl, ?_⟩
  simp [Query.doSearch, hq, hm, bind, Except.bind]

/-- C5 witness: the amended theorem at the concrete unknown lookup
`frobnicate`. -/
theorem unknown_lookup_raises_nameError_locally_witness :
    bogusCond.prepare = .error (.nameError (unknownLookupMsg "frobnicate"))
    ∧ qBogus.doSearch srvEx .none .none .none false false false .none =
        (.error (.nameError (unknownLookupMsg "frobnicate")), []) := by
  have h := unknown_lookup_raises_nameError_locally bogusCond srvEx qBogus (by decide) rfl
  exact ⟨h.1, h.2.2⟩

/-- C2 (code bug): with `quick=False`, `delete` issues only the
bulk-delete search and returns `None` — no compensating count and no
boolean — while with `quick=True` it issues the verification count and
returns a boolean; the docstring (and the claim) promise exactly the
opposite roles for `quick`. -/
theorem delete_nonquick_skips_verification :
    Query.delete srvEx qEx false = (.ok .none,
      [{ out := true, count := false, hint := false, conditions := [],
         limit := .none, offset := .none }])
    ∧ Query.delete srvEx qEx true = (.ok (.some false),
      [{ out := true, count := false, hint := false, conditions := [],
         limit := .none, offset := .none },
       { out := false, count := true, hint := false, conditions := [],
         limit := .none, offset := .none }]) := by
  exact ⟨rfl, rfl⟩

/-- C4 counterexample: the slice `0:0` — a zero-length range with start
`0` — is not rejected: the `if s.start` truthiness guard skips the
zero-length check, the search is issued (trace of length one) and the
full materialized result list is returned. -/
theorem slice_zero_zero_issues_search :
    (Query.getSlice srvEx .table qEx (.some 0) (.some 0)).1 = .ok itemsEx
    ∧ (Query.getSlice srvEx .table qEx (.some 0) (.some 0)).2.2 =
        [{ out := false, count := false, hint := false, conditions := [],
           limit := .none, offset := .none }] := by
  exact ⟨by decide, by decide⟩

/-- C4 (amended): a negative index, a slice with a negative bound, and
a zero-length slice with nonzero start are all rejected with ValueError
before any remote search (empty search trace, receiver unchanged); the
slice `0:0` is the one zero-length form that slips through. -/
theorem negative_and_zero_length_rejected (srv : Server) (dbt : DbType)
    (q : Query) (i : Int) (sStart sStop : Option Int) (n : Int)
    (hi : i < 0)
    (hneg : (∃ m, sStart = .some m ∧ m < 0) ∨ (∃ m, sStop = .some m ∧ m < 0))
    (hn : 0 < n) :
    Query.getItem srv dbt q i =
      (.error (.valueError "Negative indexing is not supported"), q, [])
    ∧ Query.getSlice srv dbt q sStart sStop =
      (.error (.valueError "Negative indexing is not supported"), q, [])
    ∧ Query.getSlice srv dbt q (.some n) (.some n) =
      (.error (.valueError "Zero-length slices are not supported"), q, []) := by
  refine ⟨?_, ?_, ?_⟩
  · unfold Query.getItem
    rw [if_pos hi]
  · simp only [Query.getSlice]
    rcases hneg with ⟨m, hm, hlt⟩ | ⟨m, hm, hlt⟩ <;> subst hm <;> simp [hlt]
  · simp [Query.getSlice, show ¬ (n < 0) by omega, hn.ne']

/-- C4 witness: the amended rejections at the concrete inputs `-1`,
`-2:`, and `3:3`. -/
theorem negative_and_zero_length_rejected_witness :
    Query.getItem srvEx .table qEx (-1) =
      (.error (.valueError "Negative indexing is not supported"), qEx, [])
    ∧ Query.getSlice srvEx .table qEx (.some (-2)) .none =
      (.error (.valueError "Negative indexing is not supported"), qEx, [])
    ∧ Query.getSlice srvEx .table qEx (.some 3) (.some 3) =
      (.error (.valueError "Zero-length slices are not supported"), qEx, []) :=
  negative_and_zero_length_rejected srvEx .table qEx (-1) (.some (-2)) .none 3
    (by decide) (Or.inl ⟨-2, rfl, by decide⟩) (by decide)

/-- C6 (code bug): `columns()` with no names does not fall back to the
full slice fetch: the wildcard test `'*' in names` fails on the empty
tuple, one un-projected search is issued (returning keys, not records)
and decoding the keys as table records raises IndexError — whereas the
docstring promises the whole items, as `columns('*')` and the full
slice indeed return; with specific names one projected search returns
the decoded values and leaves the query's cache untouched. -/
theorem columns_no_names_not_full_fetch :
    (Query.columnsQ srvEx .table qEx []).1 = .error .indexError
    ∧ (Query.columnsQ srvEx .table qEx []).2.2 =
        [{ out := false, count := false, hint := false, conditions := [],
           limit := .none, offset := .none }]
    ∧ (Query.columnsQ srvEx .table qEx ["*"]).1 = .ok (.items itemsEx)
    ∧ (Query.getSlice srvEx .table qEx .none .none).1 = .ok itemsEx
    ∧ (Query.columnsQ srvEx .table qEx ["name"]).1 =
        .ok (.values [.dict [("name", "Foo")], .dict [("name", "Bar")]])
    ∧ (Query.columnsQ srvEx .table qEx ["name"]).2.1 = qEx := by
  exact ⟨by decide, by decide, by decide, by decide, by decide, by decide⟩


/-- Batch decoding of a multi-get response, generalized over the
accumulator of `List.mapM.loop`: when every key in the chunk decodes,
the loop produces the keys paired with their decoded values. -/
theorem mget_decode_loop (srv : Server) (dbt : DbType) (dec : String → PyVal)
    (ks : List String) :
    ∀ acc : List (String × PyVal),
      (∀ k ∈ ks, toPython dbt (srv.store k) = .ok (dec k)) →
      List.mapM.loop (fun kv => do
          let v ← toPython dbt kv.2
          pure (kv.1, v)) (srv.mget ks) acc =
        (.ok (acc.reverse ++ ks.map (fun k => (k, dec k))) :
          Except PyErr (List (String × PyVal))) := by
  induction ks with
  | nil =>
    intro acc h
    simp [Server.mget, List.mapM.loop, pure, Except.pure]
  | cons k ks ih =>
    intro acc h
    have h1 := h k (List.mem_cons_self _ _)
    have h2 : ∀ x ∈ ks, toPython dbt (srv.store x) = .ok (dec x) :=
      fun x hx => h x (List.mem_cons_of_mem _ hx)
    have hrec := ih ((k, dec k) :: acc) h2
    simp only [Server.mget, List.map_cons, List.mapM.loop, h1, bind, Except.bind,
      pure, Except.pure] at hrec ⊢
    rw [hrec]
    simp

/-- Batch decoding of a multi-get response: when every key's stored
value decodes, chunk population pairs each key with its decoded value. -/
theorem decodeChunk_ok (srv : Server) (dbt : DbType) (dec : String → PyVal)
    (ks : List String)
    (h : ∀ k ∈ ks, toPython dbt (srv.store k) = .ok (dec k)) :
    decodeChunk srv dbt ks =
      (.ok (ks.map (fun k => (k, dec k))) : Except PyErr (List (String × PyVal))) := by
  have := mget_decode_loop srv dbt dec ks [] h
  simpa [decodeChunk, List.mapM] using this


/-- Population of a fresh chunk: past the key list it yields nothing;
otherwise it decodes the chunk's key range. -/
theorem getChunkData_fresh (srv : Server) (dbt : DbType) (dec : String → PyVal)
    (keys : List String) (size number : Nat) (hsize : 0 < size)
    (hdec : ∀ k ∈ keys, toPython dbt (srv.store k) = .ok (dec k)) :
    getChunkData srv dbt { keys := .some keys, chunks := [], chunkSize := size } number =
      if keys.length ≤ number * size then
        .ok (.none, { keys := .some keys, chunks := [], chunkSize := size })
      else
        .ok (.some (((keys.drop (number * size)).take size).map (fun k => (k, dec k))),
          { keys := .some keys,
            chunks := [(number,
              ((keys.drop (number * size)).take size).map (fun k => (k, dec k)))],
            chunkSize := size }) := by
  by_cases hN : keys.length ≤ number * size
  · simp [getChunkData, getChunkBoundaries, List.lookup, hN]
  · have hlt : number * size < keys.length := Nat.lt_of_not_le hN
    have hlen : 0 < ((keys.drop (number * size)).take size).length := by
      rw [List.length_take, List.length_drop]
      refine lt_min hsize ?_
      omega
    have hks : ((keys.drop (number * size)).take size).isEmpty = false := by
      cases hc : (keys.drop (number * size)).take size with
      | nil => rw [hc] at hlen; simp at hlen
      | cons a l => simp
    have hsub : ∀ k ∈ (keys.drop (number * size)).take size,
        toPython dbt (srv.store k) = .ok (dec k) :=
      fun k hk => hdec k (List.mem_of_mem_drop (List.mem_of_mem_take hk))
    simp [getChunkData, getChunkBoundaries, List.lookup, hN, hks, bind,
      Except.bind, decodeChunk_ok srv dbt dec _ hsub]

/-- C1: for every chunk size > 0 and realized key list of length `N`
whose stored values all decode, `ResultCache.get_item(i)` — resolving
through chunk number `⌊i / chunk_size⌋` and offset `i - chunk_start` —
returns the `(key, decoded value)` pair equal to the `i`-th element of
the fully materialized result sequence for every `i < N`, and raises
IndexError (an index-out-of-range condition) for every `i ≥ N`. -/
theorem resultCache_getItem_eq_materialized (srv : Server) (dbt : DbType)
    (keys : List String) (size : Nat) (dec : String → PyVal) (i : Nat)
    (hsize : 0 < size)
    (hdec : ∀ k ∈ keys, toPython dbt (srv.store k) = .ok (dec k)) :
    (cacheGetItem srv dbt { keys := .some keys, chunks := [], chunkSize := size } i).map
        Prod.fst =
      (match (materializedSeq dec keys)[i]? with
        | .some p => (.ok p : Except PyErr (String × PyVal))
        | .none => .error .indexError) := by
  have hgcd := getChunkData_fresh srv dbt dec keys size (i / size) hsize hdec
  have hstart_le : (i / size) * size ≤ i := Nat.div_mul_le_self i size
  have hdm := Nat.div_add_mod i size
  have hcomm : (i / size) * size = size * (i / size) := Nat.mul_comm _ _
  have hmod : i - (i / size) * size = i % size := by omega
  have hmodlt : i % size < size := Nat.mod_lt _ hsize
  by_cases hN : keys.length ≤ (i / size) * size
  · rw [if_pos hN] at hgcd
    have hNi : keys.length ≤ i := le_trans hN hstart_le
    simp only [cacheGetItem, getChunkNumber, getChunkBoundaries, bind, Except.bind]
    rw [hgcd]
    simp [materializedSeq, List.getElem?_eq_none, hNi, List.getElem?_map,
      Except.map]
  · have hlt : (i / size) * size < keys.length := Nat.lt_of_not_le hN
    rw [if_neg hN] at hgcd
    simp only [cacheGetItem, getChunkNumber, getChunkBoundaries, bind, Except.bind]
    rw [hgcd]
    have hks : ((List.take size (List.drop ((i / size) * size)
          (keys.map (fun k => (k, dec k)))))[i - (i / size) * size]?) =
        (keys[i]?).map (fun k => (k, dec k)) := by
      rw [List.getElem?_take, hmod, if_pos hmodlt, List.getElem?_drop,
        List.getElem?_map]
      rw [show (i / size) * size + i % size = i from by omega]
    cases hki : keys[i]? with
    | none =>
      rw [hki] at hks
      simp [hks, materializedSeq, List.getElem?_map, hki, pure, Except.pure,
        Except.map]
    | some k =>
      rw [hki] at hks
      simp [hks, materializedSeq, List.getElem?_map, hki, pure, Except.pure,
        Except.map]

/-- C1 witness: the chunked-access theorem at a concrete three-key
plain store with chunk size 2 and index 1. -/
theorem resultCache_getItem_eq_materialized_witness :
    (cacheGetItem srvPlain .plain
        { keys := .some ["a", "b", "c"], chunks := [], chunkSize := 2 } 1).map
        Prod.fst = .ok ("b", .str "vb") := by
  have h := resultCache_getItem_eq_materialized srvPlain .plain ["a", "b", "c"] 2
    decPlain 1 (by decide) (by decide)
  rw [h]
  decide

end Pyrant
